import Mathlib

/-!
Verification of the GroqChatBot backend (src/backend/groq_handler.py,
src/backend/main.py, src/backend/personas.py).

Strings manipulated at the character level (Python slicing, `strip`,
substring tests) are embedded as `List Char`, matching Python's view of a
`str` as a sequence of code points.  File and network effects are embedded
explicitly: the memory file content is passed as an explicit
`MemoryRecord` value, the completion API and the success of a save are an
`Oracle`, and the side effects performed by `generate_response` are
returned as a list of `Event`s.
-/

namespace GroqChatBot

/-! ### Python string helpers -/

/-- ASCII whitespace recognised by Python `str.strip()` (the inputs in this
development are ASCII, so the extra Unicode whitespace classes of Python are
not needed). -/
def isPyWs (c : Char) : Bool :=
  c = ' ' || c = '\t' || c = '\n' || c = '\r' || c = '\x0b' || c = '\x0c'

/-- Python `str.strip()`. -/
def pyStrip (cs : List Char) : List Char :=
  ((cs.dropWhile isPyWs).reverse.dropWhile isPyWs).reverse

/-- Python `needle in hay` substring containment. -/
def containsSub (hay needle : List Char) : Bool :=
  match hay with
  | [] => needle.isEmpty
  | _ :: t => needle.isPrefixOf hay || containsSub t needle

/-- Python `str.lower()` (ASCII case folding; all scrub/mood words are ASCII). -/
def pyLower (cs : List Char) : List Char := cs.map Char.toLower

/-! ### Mood detection (groq_handler.py, detect_mood) -/

def POSITIVE_WORDS : List (List Char) :=
  ["good", "great", "awesome", "happy", "cool", "fine", "love", "amazing"].map String.toList

def NEGATIVE_WORDS : List (List Char) :=
  ["sad", "tired", "angry", "upset", "stressed", "bad", "bored"].map String.toList

/-- `sum(1 for w in POSITIVE_WORDS if w in txt)` with `txt = text.lower()`. -/
def posHits (text : List Char) : Nat :=
  POSITIVE_WORDS.countP (fun w => containsSub (pyLower text) w)

/-- `sum(1 for w in NEGATIVE_WORDS if w in txt)` with `txt = text.lower()`. -/
def negHits (text : List Char) : Nat :=
  NEGATIVE_WORDS.countP (fun w => containsSub (pyLower text) w)

/-- groq_handler.py `detect_mood`. -/
def detect_mood (text : List Char) : String :=
  if text.isEmpty then "neutral"
  else if negHits text < posHits text ∧ 1 ≤ posHits text then "positive"
  else if posHits text < negHits text ∧ 1 ≤ negHits text then "negative"
  else "neutral"

/-! ### Reply polisher (groq_handler.py, polish_reply) -/

/-- `re.sub(r"\n\x7b2,\x7d", "\n", raw)`: every maximal run of newlines is
emitted as a single newline (runs of length one are untouched, longer runs
collapse to one, which is the same rewriting).  The flag records whether the
previous character was a newline. -/
def collapseNL (prevNL : Bool) : List Char → List Char
  | [] => []
  | c :: rest =>
    if c = '\n' then
      if prevNL then collapseNL true rest else '\n' :: collapseNL true rest
    else c :: collapseNL false rest

/-- Python regex word character (ASCII part of `\w`). -/
def isWordChar (c : Char) : Bool := c.isAlphanum || c = '_'

/-- The denylist of the pet-name scrub, in the alternation order of the
regex `\b(baby|sweetheart|darling|love)\b`. -/
def SCRUB_WORDS : List (List Char) :=
  ["baby", "sweetheart", "darling", "love"].map String.toList

def BUDDY : List Char := "buddy".toList

/-- A `\b` boundary holds before the current position. -/
def boundaryBefore (prev : Option Char) : Bool :=
  match prev with
  | none => true
  | some c => !isWordChar c

/-- A `\b` boundary holds after the matched word. -/
def boundaryAfter (rest : List Char) : Bool :=
  match rest with
  | [] => true
  | c :: _ => !isWordChar c

/-- Length of the denylist word matching (case-insensitively, with both
boundaries) at the current position, if any; alternatives are tried in the
regex's order. -/
def matchLenAt (prev : Option Char) (cs : List Char) : Option Nat :=
  if boundaryBefore prev then
    SCRUB_WORDS.findSome? (fun w =>
      if (cs.take w.length).map Char.toLower = w ∧ boundaryAfter (cs.drop w.length)
      then some w.length else none)
  else none

/-- Left-to-right scan of `re.sub(r"\b(baby|sweetheart|darling|love)\b",
"buddy", text, flags=re.IGNORECASE)`.  The fuel starts at the length of the
text; every step consumes at least one character (all denylist words are
nonempty), so the fuel never runs out. -/
def scrubGo : Nat → Option Char → List Char → List Char
  | 0, _, cs => cs
  | fuel + 1, prev, cs =>
    match matchLenAt prev cs with
    | some n => BUDDY ++ scrubGo fuel ((cs.take n).getLast?) (cs.drop n)
    | none =>
      match cs with
      | [] => []
      | c :: rest => c :: scrubGo fuel (some c) rest

def scrubPetNames (cs : List Char) : List Char := scrubGo cs.length none cs

/-- The emoji list hard-coded in `polish_reply`; it coincides with the
`emoji_set` of the default persona in personas.py. -/
def EMOJI_CHECK : List Char := ['😎', '😂', '🤔', '🙄', '😏', '☕']

/-- `any(e in text for e in [...])` — each glyph is a single code point, so
substring containment is character membership. -/
def hasCheckedEmoji (cs : List Char) : Bool :=
  EMOJI_CHECK.any (fun e => cs.contains e)

def MAX_REPLY_LEN : Nat := 1000

def DEFAULT_SUB : List Char := "default".toList

/-- The cleaning and conditional scrubbing stage of `polish_reply`
(everything before the emoji guarantee). -/
def polishScrubbed (raw : List Char) (mood : String) : List Char :=
  let text := pyStrip (collapseNL false raw)
  if containsSub (pyLower raw) DEFAULT_SUB || mood == "negative"
  then scrubPetNames text else text

/-- `polish_reply` before the final `text[:1000]` slice. -/
def polishPre (raw : List Char) (mood : String) : List Char :=
  let text := polishScrubbed raw mood
  if hasCheckedEmoji text then text
  else text ++ (if mood != "negative" then [' ', '😎'] else [' ', '☕'])

/-- groq_handler.py `polish_reply`. -/
def polish_reply (raw : List Char) (mood : String) : List Char :=
  (polishPre raw mood).take MAX_REPLY_LEN

/-! ### Data model: turns, memory records, personas -/

/-- One entry of a persona's `conversations` list
(`\x7b"role": ..., "msg": ...\x7d`). -/
structure Turn where
  role : String
  msg : List Char
deriving DecidableEq

/-- The per-persona memory document
(`\x7b"user": \x7b"name", "interests", "notes"\x7d, "conversations"\x7d`). -/
structure MemoryRecord where
  userName : Option String
  interests : List String
  notes : List (String × String)
  conversations : List Turn
deriving DecidableEq

/-- The fresh default record created by `ensure_persona_memory` and used by
the `/chat` reset branch. -/
def emptyMemoryRecord : MemoryRecord := ⟨none, [], [], []⟩

/-- One entry of the `PERSONAS` dict in groq_handler.py.  The mock registry
there defines only a `system_prompt` field; `name` is `none` because no
`"name"` key is present (main.py nonetheless reads it). -/
structure GroqPersona where
  system_prompt : String
  name : Option String
deriving DecidableEq

def DEFAULT_SYSTEM_PROMPT : String :=
  "You are a friendly assistant who responds with a casual tone."

/-- groq_handler.py `PERSONAS`: the mock registry, whose only key is
`"default"` (the rich registry in personas.py is never imported by
groq_handler.py or main.py). -/
def PERSONAS : List (String × GroqPersona) :=
  [("default", ⟨DEFAULT_SYSTEM_PROMPT, none⟩)]

def personaLookup (key : String) : Option GroqPersona :=
  (PERSONAS.find? (fun p => p.1 == key)).map Prod.snd

/-- The `if persona_key not in PERSONAS: persona_key = "default"` fallback
(present identically in build_messages and in the /chat handler). -/
def resolvedKey (key : String) : String :=
  if (personaLookup key).isSome then key else "default"

/-- `PERSONAS[key]["system_prompt"]` (total form; the lookup always
succeeds on a resolved key). -/
def systemPromptOf (key : String) : String :=
  ((personaLookup key).map GroqPersona.system_prompt).getD ""

/-- groq_handler.py `get_memory_path` (directory creation elided). -/
def get_memory_path (key : String) : String := "memory/" ++ key ++ ".json"

/-! ### Message building (groq_handler.py, build_messages) -/

/-- Wire content of a `ChatMessage`: plain text, or the structured
text-plus-image content used for image-bearing user turns. -/
inductive Content where
  | text (s : List Char)
  | multi (t : List Char) (imageUrl : String)
deriving DecidableEq

structure ChatMessage where
  role : String
  content : Content
deriving DecidableEq

/-- Outcome of the image branch of build_messages: the path does not exist
(or no path was given), base64 encoding failed, or encoding succeeded. -/
inductive ImageOutcome where
  | encodeFail
  | encoded (b64 : String)
deriving DecidableEq

def mapHistoryTurn (item : Turn) : ChatMessage :=
  ⟨if item.role == "user" then "user" else "assistant", Content.text item.msg⟩

def DESCRIBE_PROMPT : List Char := "Describe this image.".toList

/-- groq_handler.py `build_messages`.  The memory file read by
`load_persona_memory` is the explicit `mem` argument; `image = none` means
no image path was supplied (or the path does not exist).  Returns the
message list and the memory path, as the source does. -/
def build_messages (user_message : List Char) (persona_key : String)
    (mem : MemoryRecord) (image : Option ImageOutcome) :
    List ChatMessage × String :=
  let key := resolvedKey persona_key
  let recent_conv := mem.conversations.drop (mem.conversations.length - 10)
  let base : List ChatMessage :=
    ⟨"system", Content.text (systemPromptOf key).toList⟩ ::
      recent_conv.map mapHistoryTurn
  let lastMsg : ChatMessage :=
    match image with
    | some (ImageOutcome.encoded b64) =>
      ⟨"user", Content.multi
        (if user_message.isEmpty then DESCRIBE_PROMPT else user_message)
        ("data:image/jpeg;base64," ++ b64)⟩
    | some ImageOutcome.encodeFail => ⟨"user", Content.text user_message⟩
    | none => ⟨"user", Content.text user_message⟩
  (base ++ [lastMsg], get_memory_path key)

/-! ### Conversation trimming -/

/-- The history cap, hard-coded as 60 in generate_response and configured
with default 60 (`MAX_CONVERSATION_HISTORY`) in main.py. -/
def MAX_CONVERSATION_HISTORY : Nat := 60

def TURN_MSG_LIMIT : Nat := 200

/-- `if len(conversations) > 60: conversations = conversations[-60:]`. -/
def trimConversations (c : List Turn) : List Turn :=
  if c.length > MAX_CONVERSATION_HISTORY
  then c.drop (c.length - MAX_CONVERSATION_HISTORY) else c

/-- The append-two-turns-then-trim step shared by generate_response and the
/chat handler: append the user turn and the assistant turn (each message
sliced to 200 characters), then trim to the cap. -/
def appendTurnPair (conv : List Turn) (userMsg assistantMsg : List Char) :
    List Turn :=
  trimConversations
    (conv ++ [⟨"user", userMsg.take TURN_MSG_LIMIT⟩,
              ⟨"assistant", assistantMsg.take TURN_MSG_LIMIT⟩])

/-! ### The response generator (groq_handler.py, generate_response) -/

/-- Side effects performed by one call to generate_response, in order. -/
inductive Event where
  | apiCall (model : String)
  | memLoad
  | memSave
deriving DecidableEq

/-- Abstraction of the external world for one request: what the primary and
fallback completion calls return (`none` = the call raises), whether the
`save_persona_memory` calls of the request succeed (when one fails it logs
and re-raises), and, for a failed save, which record a subsequent load
observes.  A failed save is not a no-op: `open(path, "w")` truncates the
file before `json.dump` writes, so depending on where the failure strikes
the file may be left untouched, empty, or partially written — an empty or
unparsable file makes the next load fall back to the fresh default record.
`failedSaveResidue` is that environment-determined outcome. -/
structure Oracle where
  primary : Option (List Char)
  fallback : Option (List Char)
  saveOk : Bool
  failedSaveResidue : MemoryRecord
deriving DecidableEq

def PRIMARY_MODEL : String := "llama-3.3-70b-versatile"
def FALLBACK_MODEL : String := "meta-llama/llama-4-scout-17b-16e-instruct"
def BLANK_REPLY : List Char := "Blank message? Classic move 🙄".toList
def APOLOGY_REPLY : List Char :=
  "Server thak gaya re baba... 10 sec baad try kar 😴".toList
def SCOUT_TAG : List Char := "[Scout mode activated] ".toList

/-- Result of one `generate_response` call: the returned string, the
record a subsequent load observes afterwards (untouched when no save was
attempted, the appended record after a successful save, the oracle's
residue after a failed save), and the side effects in order. -/
structure GenResult where
  reply : List Char
  mem : MemoryRecord
  events : List Event
deriving DecidableEq

/-- groq_handler.py `generate_response` for a text chat (no image path).
`mem` is the persisted record at the start of the request; build_messages
performs the first memory load, the post-completion bookkeeping the second.
A failed save aborts the function through its top-level handler, which
returns the apology string; the on-disk record is then whatever the failed
truncate-and-write left behind (`o.failedSaveResidue`). -/
def generate_response (user_message : List Char) (persona_key : String)
    (mem : MemoryRecord) (o : Oracle) : GenResult :=
  if (pyStrip user_message).isEmpty then ⟨BLANK_REPLY, mem, []⟩
  else
    let mood := detect_mood user_message
    let _msgs := build_messages user_message persona_key mem none
    let attempt : Option (List Char) × List Event :=
      match o.primary with
      | some c => (some (pyStrip c), [Event.memLoad, Event.apiCall PRIMARY_MODEL])
      | none =>
        match o.fallback with
        | some c =>
          (some (SCOUT_TAG ++ pyStrip c),
           [Event.memLoad, Event.apiCall PRIMARY_MODEL,
            Event.apiCall FALLBACK_MODEL])
        | none =>
          (none,
           [Event.memLoad, Event.apiCall PRIMARY_MODEL,
            Event.apiCall FALLBACK_MODEL])
    match attempt with
    | (none, evs) => ⟨APOLOGY_REPLY, mem, evs⟩
    | (some raw, evs) =>
      let reply := polish_reply raw mood
      let mem1 : MemoryRecord :=
        ⟨mem.userName, mem.interests, mem.notes,
         appendTurnPair mem.conversations user_message reply⟩
      if o.saveOk then ⟨reply, mem1, evs ++ [Event.memLoad, Event.memSave]⟩
      else ⟨APOLOGY_REPLY, o.failedSaveResidue,
            evs ++ [Event.memLoad, Event.memSave]⟩

/-! ### The /chat route (main.py, chat) -/

/-- The JSON body of a successful /chat response. -/
structure ChatOk where
  reply : List Char
  mode : String
  display_name : String
deriving DecidableEq

/-- main.py `/chat` handler.  Returns the HTTP outcome (`Except` status
code) and the persisted memory record afterwards.  After generate_response
returns, the handler loads the record again, appends the same user/assistant
pair a second time, trims, and saves; building the response body then reads
`PERSONAS[mode]["name"]`, a key the mock registry does not define, so the
except-block turns the KeyError into a 500.  A failed save raises through
the except-block into a 500 and leaves the oracle's residue on disk. -/
def chatHandler (message : List Char) (mode : String) (reset : Bool)
    (persisted : MemoryRecord) (o : Oracle) :
    Except Nat ChatOk × MemoryRecord :=
  let mode := resolvedKey mode
  if (pyStrip message).isEmpty then (Except.error 400, persisted)
  else if reset && !o.saveOk then (Except.error 500, o.failedSaveResidue)
  else
    let mem0 := if reset then emptyMemoryRecord else persisted
    let r := generate_response message mode mem0 o
    let mem2 : MemoryRecord :=
      ⟨r.mem.userName, r.mem.interests, r.mem.notes,
       appendTurnPair r.mem.conversations message r.reply⟩
    if o.saveOk then
      match (personaLookup mode).bind GroqPersona.name with
      | some n => (Except.ok ⟨r.reply, mode, n⟩, mem2)
      | none => (Except.error 500, mem2)
    else (Except.error 500, o.failedSaveResidue)

/-! ### File-system operations of the memory store (groq_handler.py,
save_persona_memory) -/

/-- File-system operations relevant to the save path. -/
inductive FsOp where
  | openTrunc (path : String)
  | write (path : String) (data : String)
  | rename (src dst : String)
deriving DecidableEq

def FsOp.isRename : FsOp → Bool
  | FsOp.rename _ _ => true
  | _ => false

def quoteJson (s : String) : String := "\"" ++ s ++ "\""

def serializeTurn (t : Turn) : String :=
  "\x7b" ++ quoteJson "role" ++ ": " ++ quoteJson t.role ++ ", " ++
    quoteJson "msg" ++ ": " ++ quoteJson (String.mk t.msg) ++ "\x7d"

/-- Rendering of `json.dump(data, f)` (whitespace conventions simplified;
only the fact that a record renders as a nonempty string matters below). -/
def serializeMemory (m : MemoryRecord) : String :=
  "\x7b" ++ quoteJson "user" ++ ": \x7b" ++
    quoteJson "name" ++ ": " ++ (match m.userName with
      | some n => quoteJson n
      | none => "null") ++ ", " ++
    quoteJson "interests" ++ ": [" ++
      String.intercalate ", " (m.interests.map quoteJson) ++ "], " ++
    quoteJson "notes" ++ ": \x7b" ++
      String.intercalate ", "
        (m.notes.map (fun p => quoteJson p.1 ++ ": " ++ quoteJson p.2)) ++
      "\x7d\x7d, " ++
    quoteJson "conversations" ++ ": [" ++
      String.intercalate ", " (m.conversations.map serializeTurn) ++ "]\x7d"

/-- groq_handler.py `save_persona_memory` as its file-system trace:
`open(path, "w")` truncates the target file in place, then `json.dump`
writes the serialized record to the same path.  No temporary file, no
rename. -/
def save_persona_memory_ops (persona_key : String) (data : MemoryRecord) :
    List FsOp :=
  [FsOp.openTrunc (get_memory_path persona_key),
   FsOp.write (get_memory_path persona_key) (serializeMemory data)]

/-- Effect of one file-system operation on the file contents (a map from
path to content; `none` = no such file). -/
def applyFsOp (files : String → Option String) : FsOp → String → Option String
  | FsOp.openTrunc p => fun q => if q = p then some "" else files q
  | FsOp.write p d => fun q =>
      if q = p then some ((files p).getD "" ++ d) else files q
  | FsOp.rename s d => fun q =>
      if q = d then files s else if q = s then none else files q

def runFs (files : String → Option String) : List FsOp → String → Option String
  | [] => files
  | op :: rest => runFs (applyFsOp files op) rest

/-! ### Iterated appends (for the history-cap invariant) -/

/-- The conversation list after a sequence of chat turns, each appending a
(user message, assistant reply) pair through the shared append-and-trim
step, starting from the empty record. -/
def runChatAppends (ps : List (List Char × List Char)) : List Turn :=
  ps.foldl (fun conv p => appendTurnPair conv p.1 p.2) []

/-- The full chronological list of turns those chat turns produce (no
trimming). -/
def allTurns (ps : List (List Char × List Char)) : List Turn :=
  (ps.map (fun p =>
    [⟨"user", p.1.take TURN_MSG_LIMIT⟩,
     ⟨"assistant", p.2.take TURN_MSG_LIMIT⟩])).flatten

/-! ### Concrete inputs for the counterexamples -/

/-- 1000 copies of the letter a. -/
def longA : List Char := List.replicate 1000 'a'

/-- The 1200-character text "ab ab ab ..." (400 copies of "ab "). -/
def longAB : List Char := (List.replicate 400 ['a', 'b', ' ']).flatten

set_option maxRecDepth 100000

/-! ## Theorems -/

/-- Claim C1 (code bug): a single successful /chat request — non-blank
message "hi", default mode, no reset, empty initial history, primary model
answering "Hello", saves succeeding — leaves FOUR turns in the persona's
conversations, the user/assistant pair appended twice (once inside
generate_response, once again by the /chat handler), not the claimed two. -/
theorem chat_request_appends_four_turns :
    (chatHandler "hi".toList "default" false emptyMemoryRecord
        ⟨some "Hello".toList, none, true, emptyMemoryRecord⟩).2.conversations =
      [⟨"user", "hi".toList⟩, ⟨"assistant", "Hello 😎".toList⟩,
       ⟨"user", "hi".toList⟩, ⟨"assistant", "Hello 😎".toList⟩] := by
  decide

/-- Claim C2, counterexample: the file-system trace of
`save_persona_memory("default", record)` contains no rename at all, and a
crash after its first operation (the truncating open) leaves the memory
file empty — neither the old record nor the new one — visible to a
subsequent load. -/
theorem save_not_atomic_cex :
    (save_persona_memory_ops "default" emptyMemoryRecord).countP
        FsOp.isRename = 0 ∧
    runFs
      (fun q => if q = get_memory_path "default"
                then some (serializeMemory emptyMemoryRecord) else none)
      ((save_persona_memory_ops "default" emptyMemoryRecord).take 1)
      (get_memory_path "default") = some "" ∧
    serializeMemory emptyMemoryRecord ≠ "" := by
  decide

/-- Claim C2, amended: `save_persona_memory` writes the record directly to
the final path — every operation in its trace targets that path and none is
a rename — and after the first operation (the truncating open, before the
write) the visible file content is the empty string, whatever was stored
before. -/
theorem save_direct_overwrite (key : String) (data : MemoryRecord)
    (files : String → Option String) :
    ((save_persona_memory_ops key data).all
       (fun op => match op with
         | FsOp.openTrunc p => p == get_memory_path key
         | FsOp.write p _ => p == get_memory_path key
         | FsOp.rename _ _ => false)) = true ∧
    runFs files ((save_persona_memory_ops key data).take 1)
      (get_memory_path key) = some "" := by
  constructor
  · simp [save_persona_memory_ops]
  · simp [save_persona_memory_ops, runFs, applyFsOp]

/-- Claim C3, counterexample: with the primary completion succeeding
("Hello") but the save failing (here leaving the fresh default record on
disk), generate_response does NOT return the polished reply — the claim's
promised value differs from what is returned. -/
theorem save_failure_not_reply_cex :
    (generate_response "hi".toList "default" emptyMemoryRecord
        ⟨some "Hello".toList, none, false, emptyMemoryRecord⟩).reply ≠
      polish_reply (pyStrip "Hello".toList) (detect_mood "hi".toList) := by
  decide

/-- Claim C3, amended: when the completion succeeds but the persistence
step fails, the error is caught by generate_response's top-level handler,
which returns the fixed apology string instead of the polished reply
(whatever record the failed truncate-and-write left on disk). -/
theorem save_failure_apology_reply (msg : List Char) (key : String)
    (mem : MemoryRecord) (o : Oracle) (c : List Char)
    (hblank : (pyStrip msg).isEmpty = false) (hp : o.primary = some c)
    (hs : o.saveOk = false) :
    (generate_response msg key mem o).reply = APOLOGY_REPLY := by
  unfold generate_response
  simp [hblank, hp, hs]

/-- Witness for `save_failure_apology_reply` at a concrete input. -/
theorem save_failure_apology_reply_witness :
    (generate_response "hi".toList "default" emptyMemoryRecord
        ⟨some "Hello".toList, none, false, emptyMemoryRecord⟩).reply =
      APOLOGY_REPLY :=
  save_failure_apology_reply "hi".toList "default" emptyMemoryRecord
    ⟨some "Hello".toList, none, false, emptyMemoryRecord⟩ "Hello".toList
    (by decide) rfl rfl

/-- Claim C6, amended part: the polished reply never exceeds the configured
maximum of 1000 characters (the truncation is the plain slice
`text[:1000]`). -/
theorem polish_reply_length_le (raw : List Char) (mood : String) :
    (polish_reply raw mood).length ≤ MAX_REPLY_LEN := by
  unfold polish_reply
  exact (polishPre raw mood).length_take_le _

/-- Claim C6, counterexample: on the 1200-character input "ab ab ...", the
pre-truncation text is longer than the limit, the output is cut to exactly
1000 characters ending in the word character a with the word character b
following in the untruncated text — the word "ab" is split mid-token — and
no ellipsis is appended (the output ends in a letter). -/
theorem polish_truncation_hard_cut_cex :
    1000 < (polishPre longAB "neutral").length ∧
    (polish_reply longAB "neutral").length = 1000 ∧
    (polish_reply longAB "neutral").getLast? = some 'a' ∧
    (polishPre longAB "neutral")[1000]? = some 'b' ∧
    isWordChar 'a' = true ∧ isWordChar 'b' = true := by
  decide

/-- Claim C5, counterexample: on a 1000-character input with no emoji, the
appended emoji falls beyond the 1000-character slice, so the polished
output contains none of the allowed glyphs. -/
theorem polish_can_drop_emoji_cex :
    hasCheckedEmoji (polish_reply longA "neutral") = false := by
  decide

/-- Claim C5, amended: whenever the cleaned-and-scrubbed text is at most
998 characters, the polished output does contain one of the allowed emoji
glyphs (the emoji appended before truncation survives the slice). -/
theorem polish_emoji_when_short (raw : List Char) (mood : String)
    (h : (polishScrubbed raw mood).length ≤ 998) :
    hasCheckedEmoji (polish_reply raw mood) = true := by
  unfold polish_reply polishPre
  by_cases he : hasCheckedEmoji (polishScrubbed raw mood)
  · rw [if_pos he, List.take_of_length_le (by unfold MAX_REPLY_LEN; omega)]
    exact he
  · rw [if_neg he]
    by_cases hm : (mood != "negative") = true
    · rw [if_pos hm, List.take_of_length_le
        (by simp [MAX_REPLY_LEN]; omega)]
      unfold hasCheckedEmoji
      rw [List.any_eq_true]
      exact ⟨'😎', by simp [EMOJI_CHECK], by simp⟩
    · rw [if_neg hm, List.take_of_length_le
        (by simp [MAX_REPLY_LEN]; omega)]
      unfold hasCheckedEmoji
      rw [List.any_eq_true]
      exact ⟨'☕', by simp [EMOJI_CHECK], by simp⟩

/-- Witness for `polish_emoji_when_short` at a concrete input. -/
theorem polish_emoji_when_short_witness :
    hasCheckedEmoji (polish_reply "hi".toList "neutral") = true :=
  polish_emoji_when_short "hi".toList "neutral" (by decide)

/-- Claim C9: a blank or whitespace-only user message makes
generate_response return the fixed friendly string immediately, with the
persisted record unchanged and no side effects at all (no API call, no
memory load, no save). -/
theorem blank_message_short_circuit (msg : List Char) (key : String)
    (mem : MemoryRecord) (o : Oracle)
    (h : (pyStrip msg).isEmpty = true) :
    generate_response msg key mem o = ⟨BLANK_REPLY, mem, []⟩ := by
  unfold generate_response
  simp [h]

/-- Witness for `blank_message_short_circuit` at a concrete input. -/
theorem blank_message_short_circuit_witness :
    generate_response "   ".toList "default" emptyMemoryRecord
        ⟨some "ok".toList, none, true, emptyMemoryRecord⟩ =
      ⟨BLANK_REPLY, emptyMemoryRecord, []⟩ :=
  blank_message_short_circuit "   ".toList "default" emptyMemoryRecord
    ⟨some "ok".toList, none, true, emptyMemoryRecord⟩ (by decide)

/-- The persona-key fallback always resolves to "default", because the
registry consulted by the completion pipeline has "default" as its only
key. -/
theorem resolvedKey_eq_default (key : String) : resolvedKey key = "default" := by
  unfold resolvedKey personaLookup PERSONAS
  by_cases h : ("default" == key) = true
  · simp only [List.find?, h]
    simp at h
    simp [h]
  · simp only [List.find?, h]
    simp

/-- Claim C4: for every persona key, user message, stored memory and image
outcome, the system message build_messages produces carries the default
persona's system prompt, and the registry the pipeline consults has
"default" as its only key. -/
theorem system_prompt_always_default (msg : List Char) (key : String)
    (mem : MemoryRecord) (img : Option ImageOutcome) :
    (build_messages msg key mem img).1.head? =
      some ⟨"system", Content.text DEFAULT_SYSTEM_PROMPT.toList⟩ ∧
    PERSONAS.map Prod.fst = ["default"] := by
  refine ⟨?_, rfl⟩
  unfold build_messages
  rw [resolvedKey_eq_default]
  rfl

/-- Claim C10: for a text-only request, build_messages returns the system
message carrying the resolved persona's prompt, then the last 10 stored
turns in their original (oldest-first) order each mapped through
`mapHistoryTurn`, and finally the new user turn; exactly one system message
occurs, and a stored turn maps to role "user" exactly when its stored role
is "user", any other role mapping to "assistant". -/
theorem build_messages_shape (msg : List Char) (key : String)
    (mem : MemoryRecord) :
    (build_messages msg key mem none).1 =
      ChatMessage.mk "system"
          (Content.text (systemPromptOf (resolvedKey key)).toList) ::
        ((mem.conversations.reverse.take 10).reverse.map mapHistoryTurn ++
          [⟨"user", Content.text msg⟩]) ∧
    (build_messages msg key mem none).1.countP
        (fun m => m.role == "system") = 1 ∧
    (∀ r : String, ∀ m : List Char,
      (mapHistoryTurn ⟨r, m⟩).role =
        if r == "user" then "user" else "assistant") := by
  have h10 : (mem.conversations.reverse.take 10).reverse =
      mem.conversations.drop (mem.conversations.length - 10) := by
    rw [List.take_reverse, List.reverse_reverse]
  have hmapped : ((mem.conversations.drop
      (mem.conversations.length - 10)).map mapHistoryTurn).countP
        (fun m => m.role == "system") = 0 := by
    rw [List.countP_eq_zero]
    intro x hx
    rcases List.mem_map.mp hx with ⟨item, _, rfl⟩
    unfold mapHistoryTurn
    by_cases h : (item.role == "user") = true <;> simp [h]
  refine ⟨?_, ?_, fun r m => rfl⟩
  · rw [h10]
    rfl
  · show ((build_messages msg key mem none).1).countP _ = 1
    unfold build_messages
    simp only [List.countP_cons, List.countP_append, hmapped]
    rfl

/-- Claim C7: detect_mood is total and returns "positive" exactly when the
positive-word hit count beats the negative one and is at least 1,
"negative" in the symmetric case, and "neutral" otherwise; its value on the
three sample sentences is as claimed. -/
theorem detect_mood_spec (t : List Char) :
    (detect_mood t = "positive" ↔
      negHits t < posHits t ∧ 1 ≤ posHits t) ∧
    (detect_mood t = "negative" ↔
      posHits t < negHits t ∧ 1 ≤ negHits t) ∧
    (detect_mood t = "neutral" ↔
      ¬(negHits t < posHits t ∧ 1 ≤ posHits t) ∧
      ¬(posHits t < negHits t ∧ 1 ≤ negHits t)) ∧
    detect_mood "I feel great and happy".toList = "positive" ∧
    detect_mood "I am so sad and tired".toList = "negative" ∧
    detect_mood "the sky is blue".toList = "neutral" := by
  refine ⟨?_, ?_, ?_, by decide, by decide, by decide⟩
  · rcases t with _ | ⟨c, cs⟩
    · decide
    · unfold detect_mood
      rw [if_neg (by simp)]
      split_ifs with h1 h2
      · exact iff_of_true rfl h1
      · exact iff_of_false (by decide) h1
      · exact iff_of_false (by decide) h1
  · rcases t with _ | ⟨c, cs⟩
    · decide
    · unfold detect_mood
      rw [if_neg (by simp)]
      split_ifs with h1 h2
      · exact iff_of_false (by decide) (by omega)
      · exact iff_of_true rfl h2
      · exact iff_of_false (by decide) h2
  · rcases t with _ | ⟨c, cs⟩
    · decide
    · unfold detect_mood
      rw [if_neg (by simp)]
      split_ifs with h1 h2
      · exact iff_of_false (by decide) (fun hc => hc.1 h1)
      · exact iff_of_false (by decide) (fun hc => hc.2 h2)
      · exact iff_of_true rfl ⟨h1, h2⟩

/-- One append-and-trim step always leaves at most 60 turns. -/
theorem appendTurnPair_length_le (conv : List Turn) (u a : List Char) :
    (appendTurnPair conv u a).length ≤ MAX_CONVERSATION_HISTORY := by
  unfold appendTurnPair trimConversations MAX_CONVERSATION_HISTORY
  split_ifs with h
  · rw [List.length_drop]
    omega
  · omega

/-- Trimming only drops from the front: the result is a suffix. -/
theorem trimConversations_suffix (c : List Turn) : trimConversations c <:+ c := by
  unfold trimConversations
  split_ifs with h
  · exact List.drop_suffix _ _
  · exact ⟨[], rfl⟩

theorem suffix_append_same (l m t : List Turn) (h : l <:+ m) :
    l ++ t <:+ m ++ t := by
  rcases h with ⟨s, rfl⟩
  exact ⟨s, (List.append_assoc s l t).symm⟩

/-- Invariant carried through the fold: from any state within the cap, the
folded conversation list stays within the cap and is a suffix of the
starting state followed by all appended turns in chronological order. -/
theorem runChatAppends_aux (ps : List (List Char × List Char)) :
    ∀ conv : List Turn, conv.length ≤ MAX_CONVERSATION_HISTORY →
      (ps.foldl (fun c p => appendTurnPair c p.1 p.2) conv).length ≤
          MAX_CONVERSATION_HISTORY ∧
      (ps.foldl (fun c p => appendTurnPair c p.1 p.2) conv) <:+
          conv ++ allTurns ps := by
  induction ps with
  | nil =>
    intro conv h
    exact ⟨h, by simp [allTurns]⟩
  | cons p ps ih =>
    intro conv h
    rw [List.foldl_cons]
    rcases ih (appendTurnPair conv p.1 p.2)
      (appendTurnPair_length_le conv p.1 p.2) with ⟨hl, hs⟩
    refine ⟨hl, hs.trans ?_⟩
    have h1 : appendTurnPair conv p.1 p.2 <:+
        conv ++ [⟨"user", p.1.take TURN_MSG_LIMIT⟩,
                 ⟨"assistant", p.2.take TURN_MSG_LIMIT⟩] :=
      trimConversations_suffix _
    have h2 := suffix_append_same _ _ (allTurns ps) h1
    simpa [allTurns, List.append_assoc] using h2

/-- Claim C8: any sequence of append-turn steps, starting from the empty
record, leaves the conversations list within the 60-turn cap, and what is
retained is a suffix of the full chronological list of appended turns —
i.e. the most recent turns in their original order, the oldest dropped
first. -/
theorem conversations_cap_and_suffix (ps : List (List Char × List Char)) :
    (runChatAppends ps).length ≤ MAX_CONVERSATION_HISTORY ∧
    runChatAppends ps <:+ allTurns ps := by
  have h := runChatAppends_aux ps [] (by simp)
  simpa [runChatAppends] using h

end GroqChatBot
